import Mathlib

/-!
Verification of the lifetime/ownership substrate of the igraph Python
module (source file: src/igraphmodule.c) against its specification.

The first part embeds the module-initialization routine initigraph:
it assigns garbage-collection hooks (tp_traverse / tp_clear) on the four
proxy type objects, readies the five type objects in a fixed order with
an early return on failure, creates the InternalError exception and the
module object, publishes the integer constants, and registers the igraph
error handler.

The second part models the Resource / Back-Reference / mutation protocol
described by the specification; the implementing files (graphobject.c,
vertexseqobject.c, vertexobject.c, edgeseqobject.c, edgeobject.c) are not
part of the sources at hand, so those definitions are modelled from the
specification text, as marked in their doc comments.
-/

/-- The five Python type objects handled by initigraph. -/
inductive TypeId where
  | vertexSeq
  | vertex
  | edgeSeq
  | edge
  | graph
  deriving DecidableEq, BEq

/-- The slots of a Python type object that initigraph assigns, each holding
the name of the C function installed there (none when unset), plus whether
PyType_Ready succeeded on the type. -/
structure TypeSlots where
  tp_traverse : Option String
  tp_clear : Option String
  tp_new : Option String
  tp_init : Option String
  tp_methods : Option String
  tp_getset : Option String
  readied : Bool
  deriving DecidableEq

/-- Modelled from the spec: the static type-object initializers live in
graphobject.c, vertexseqobject.c, vertexobject.c, edgeseqobject.c and
edgeobject.c, which are not among the sources at hand.  Per the module
doc comment (the Graph type carries a del finalizer and relies on weak
references instead of cycle collection) none of the slots assigned by
initigraph is pre-set before it runs. -/
def TypeSlots.empty : TypeSlots :=
  { tp_traverse := none, tp_clear := none, tp_new := none, tp_init := none,
    tp_methods := none, tp_getset := none, readied := false }

/-- Host-runtime actions performed by initigraph, in order. -/
inductive Event where
  | readyType (t : TypeId)
  | newException (name : String)
  | initModule (name : String)
  | addObject (name : String)
  | addIntConstant (name : String) (value : Int)
  | setErrorHandler
  deriving DecidableEq

/-- The TypeId readied by an event, when the event is a PyType_Ready call. -/
def Event.ready? : Event → Option TypeId
  | .readyType t => some t
  | _ => none

/-- Whether an event is a PyType_Ready call. -/
def Event.isReady : Event → Bool
  | .readyType _ => true
  | _ => false

/-- The enumerant values supplied by the native igraph engine (igraph.h),
consumed as an opaque external collaborator. -/
structure Engine where
  IGRAPH_OUT : Int
  IGRAPH_IN : Int
  IGRAPH_ALL : Int
  IGRAPH_STAR_OUT : Int
  IGRAPH_STAR_IN : Int
  IGRAPH_STAR_UNDIRECTED : Int
  IGRAPH_TREE_OUT : Int
  IGRAPH_TREE_IN : Int
  IGRAPH_TREE_UNDIRECTED : Int
  IGRAPH_STRONG : Int
  IGRAPH_WEAK : Int
  IGRAPH_GET_ADJACENCY_UPPER : Int
  IGRAPH_GET_ADJACENCY_LOWER : Int
  IGRAPH_GET_ADJACENCY_BOTH : Int
  deriving DecidableEq

/-- A concrete engine instance with the enumerant values of igraph.h. -/
def Engine.example : Engine :=
  { IGRAPH_OUT := 1, IGRAPH_IN := 2, IGRAPH_ALL := 3,
    IGRAPH_STAR_OUT := 0, IGRAPH_STAR_IN := 1, IGRAPH_STAR_UNDIRECTED := 2,
    IGRAPH_TREE_OUT := 0, IGRAPH_TREE_IN := 1, IGRAPH_TREE_UNDIRECTED := 2,
    IGRAPH_STRONG := 2, IGRAPH_WEAK := 1,
    IGRAPH_GET_ADJACENCY_UPPER := 0, IGRAPH_GET_ADJACENCY_LOWER := 1,
    IGRAPH_GET_ADJACENCY_BOTH := 2 }

/-- The process-wide state touched by initigraph: the five type objects,
the InternalError exception, the module object with its attributes, the
igraph error-handler registration, and the trace of actions performed. -/
structure ModuleState where
  vertexSeqType : TypeSlots
  vertexType : TypeSlots
  edgeSeqType : TypeSlots
  edgeType : TypeSlots
  graphType : TypeSlots
  internalError : Bool
  module : Bool
  objects : List String
  intConstants : List (String × Int)
  errorHandler : Bool
  trace : List Event
  deriving DecidableEq

/-- The process-wide state before initigraph runs. -/
def ModuleState.initial : ModuleState :=
  { vertexSeqType := .empty, vertexType := .empty, edgeSeqType := .empty,
    edgeType := .empty, graphType := .empty, internalError := false,
    module := false, objects := [], intConstants := [], errorHandler := false,
    trace := [] }

/-- The slots of the type object identified by a TypeId. -/
def ModuleState.slotsOf (s : ModuleState) : TypeId → TypeSlots
  | .vertexSeq => s.vertexSeqType
  | .vertex => s.vertexType
  | .edgeSeq => s.edgeSeqType
  | .edge => s.edgeType
  | .graph => s.graphType

/-- Apply an update to the slots of one type object. -/
def ModuleState.updateSlot (s : ModuleState) : TypeId → (TypeSlots → TypeSlots) → ModuleState
  | .vertexSeq, f => { s with vertexSeqType := f s.vertexSeqType }
  | .vertex, f => { s with vertexType := f s.vertexType }
  | .edgeSeq, f => { s with edgeSeqType := f s.edgeSeqType }
  | .edge, f => { s with edgeType := f s.edgeType }
  | .graph, f => { s with graphType := f s.graphType }

/-- A successful PyType_Ready call on a type object: marks it readied and
records the action. -/
def ModuleState.markReady (s : ModuleState) (t : TypeId) : ModuleState :=
  let s2 := s.updateSlot t (fun ts => { ts with readied := true })
  { s2 with trace := s2.trace ++ [.readyType t] }

/-- PyModule_AddObject: publish a named object attribute on the module. -/
def ModuleState.addObject (s : ModuleState) (name : String) : ModuleState :=
  { s with objects := s.objects ++ [name], trace := s.trace ++ [.addObject name] }

/-- PyModule_AddIntConstant: publish a named integer constant on the module. -/
def ModuleState.addInt (s : ModuleState) (name : String) (v : Int) : ModuleState :=
  { s with intConstants := s.intConstants ++ [(name, v)],
           trace := s.trace ++ [.addIntConstant name v] }

set_option maxHeartbeats 2000000 in
/-- Embedding of initigraph (src/igraphmodule.c, lines 96 to 162).  The
ready oracle tells whether each PyType_Ready call succeeds; a failed call
makes the function return at once, exactly as the C early returns do. -/
def initigraph (ready : TypeId → Bool) (eng : Engine) (s0 : ModuleState) : ModuleState :=
  let s := s0.updateSlot .vertexSeq (fun ts =>
    { ts with tp_traverse := some "igraphmodule_VertexSeq_traverse",
              tp_clear := some "igraphmodule_VertexSeq_clear" })
  if !ready .vertexSeq then s else
  let s := s.markReady .vertexSeq
  let s := s.updateSlot .vertex (fun ts =>
    { ts with tp_traverse := some "igraphmodule_Vertex_traverse",
              tp_clear := some "igraphmodule_Vertex_clear" })
  if !ready .vertex then s else
  let s := s.markReady .vertex
  let s := s.updateSlot .edgeSeq (fun ts =>
    { ts with tp_traverse := some "igraphmodule_EdgeSeq_traverse",
              tp_clear := some "igraphmodule_EdgeSeq_clear" })
  if !ready .edgeSeq then s else
  let s := s.markReady .edgeSeq
  let s := s.updateSlot .edge (fun ts =>
    { ts with tp_traverse := some "igraphmodule_Edge_traverse",
              tp_clear := some "igraphmodule_Edge_clear" })
  if !ready .edge then s else
  let s := s.markReady .edge
  let s := s.updateSlot .graph (fun ts =>
    { ts with tp_new := some "igraphmodule_Graph_new",
              tp_init := some "igraphmodule_Graph_init",
              tp_methods := some "igraphmodule_Graph_methods",
              tp_getset := some "igraphmodule_Graph_getseters" })
  if !ready .graph then s else
  let s := s.markReady .graph
  let s : ModuleState :=
    { s with internalError := true,
             trace := s.trace ++ [Event.newException "igraph.InternalError"] }
  let s : ModuleState :=
    { s with module := true, trace := s.trace ++ [Event.initModule "igraph"] }
  let s := s.addObject "Graph"
  let s := s.addObject "InternalError"
  let s := s.addInt "OUT" eng.IGRAPH_OUT
  let s := s.addInt "IN" eng.IGRAPH_IN
  let s := s.addInt "ALL" eng.IGRAPH_ALL
  let s := s.addInt "STAR_OUT" eng.IGRAPH_STAR_OUT
  let s := s.addInt "STAR_IN" eng.IGRAPH_STAR_IN
  let s := s.addInt "STAR_UNDIRECTED" eng.IGRAPH_STAR_UNDIRECTED
  let s := s.addInt "TREE_OUT" eng.IGRAPH_TREE_OUT
  let s := s.addInt "TREE_IN" eng.IGRAPH_TREE_IN
  let s := s.addInt "TREE_UNDIRECTED" eng.IGRAPH_TREE_UNDIRECTED
  let s := s.addInt "STRONG" eng.IGRAPH_STRONG
  let s := s.addInt "WEAK" eng.IGRAPH_WEAK
  let s := s.addInt "GET_ADJACENCY_UPPER" eng.IGRAPH_GET_ADJACENCY_UPPER
  let s := s.addInt "GET_ADJACENCY_LOWER" eng.IGRAPH_GET_ADJACENCY_LOWER
  let s := s.addInt "GET_ADJACENCY_BOTH" eng.IGRAPH_GET_ADJACENCY_BOTH
  { s with errorHandler := true, trace := s.trace ++ [Event.setErrorHandler] }

/-- The method table of the igraph module (src/igraphmodule.c, lines 87 to
90): it is empty, so the module itself exposes no callable entry point
beyond initigraph, in particular no re-initialization or teardown call. -/
def igraphmodule_methods : List String := []

/-- The order in which initigraph readies the five type objects. -/
def readyOrder : List TypeId :=
  [.vertexSeq, .vertex, .edgeSeq, .edge, .graph]

/-- A type object has both Lifetime Coordinator hooks registered. -/
def hasGcHooks (ts : TypeSlots) : Bool :=
  ts.tp_traverse.isSome && ts.tp_clear.isSome

/-- The components the specification lists as cycle participants. -/
def cycleParticipants : List TypeId :=
  [.graph, .vertexSeq, .vertex, .edgeSeq, .edge]

/-- Modelled from the spec: the typed error kinds of its section 7; the
implementing files that raise them (graphobject.c and the proxy objects)
are not among the sources at hand. -/
inductive IgraphError where
  | constructionError
  | invalidOperationError
  | staleReferenceError
  | indexOutOfRangeError
  deriving DecidableEq

/-- Modelled from the spec: the opaque native graph structure owned by a
Resource (vertex count, edge list, directedness); its C counterpart
igraph_t lives in the external engine. -/
structure NativeGraph where
  vcount : Nat
  edges : List (Nat × Nat)
  directed : Bool
  deriving DecidableEq

/-- Modelled from the spec: the structural specification handed to
create; integer fields so that malformed inputs (negative counts,
out-of-range endpoints) are expressible. -/
structure GraphSpec where
  vcount : Int
  edges : List (Int × Int)
  directed : Bool
  deriving DecidableEq

/-- A spec is well formed when its vertex count is not negative and every
edge endpoint is inside the declared vertex range. -/
def GraphSpec.wellFormed (s : GraphSpec) : Bool :=
  0 ≤ s.vcount &&
    s.edges.all (fun e =>
      0 ≤ e.1 && e.1 < s.vcount && 0 ≤ e.2 && e.2 < s.vcount)

/-- Modelled from the spec: a Resource exclusively owns a native structure
paired with its current generation token; after destruction the pair is
gone, which is the terminal sentinel making every token check fail.  The
freedCount field counts how many times the native structure was released
(the program must keep it at most one). -/
structure Resource where
  state : Option (NativeGraph × Nat)
  freedCount : Nat
  deriving DecidableEq

/-- Modelled from the spec: create builds a fresh Resource from a
well-formed spec at generation token zero, and fails with
ConstructionError on a malformed spec. -/
def Resource.create (s : GraphSpec) : Except IgraphError Resource :=
  if s.wellFormed then
    Except.ok
      { state := some
          ({ vcount := s.vcount.toNat,
             edges := s.edges.map (fun e => (e.1.toNat, e.2.toNat)),
             directed := s.directed }, 0),
        freedCount := 0 }
  else Except.error IgraphError.constructionError

/-- Modelled from the spec: the structural mutation operations. -/
inductive MutOp where
  | addVertices (n : Nat)
  | deleteVertex (v : Nat)
  | addEdge (u v : Nat)
  | deleteEdge (i : Nat)
  deriving DecidableEq

/-- Whether a mutation operation targets elements outside the current
bounds of the graph. -/
def MutOp.outOfRange (g : NativeGraph) : MutOp → Bool
  | .addVertices _ => false
  | .deleteVertex v => !(v < g.vcount)
  | .addEdge u v => !(u < g.vcount && v < g.vcount)
  | .deleteEdge i => !(i < g.edges.length)

/-- Index re-numbering after removal of vertex v: surviving vertices above
v shift down by one. -/
def shiftAfter (v x : Nat) : Nat :=
  if v < x then x - 1 else x

/-- Modelled from the spec: the effect of one structural mutation on the
native structure, none when the operation targets out-of-range elements.
Vertex removal drops incident edges and re-numbers the survivors. -/
def NativeGraph.applyOp (g : NativeGraph) : MutOp → Option NativeGraph
  | .addVertices n => some { g with vcount := g.vcount + n }
  | .deleteVertex v =>
      if v < g.vcount then
        some { vcount := g.vcount - 1,
               edges := (g.edges.filter (fun e => !(e.1 == v) && !(e.2 == v))).map
                 (fun e => (shiftAfter v e.1, shiftAfter v e.2)),
               directed := g.directed }
      else none
  | .addEdge u v =>
      if u < g.vcount && v < g.vcount then
        some { g with edges := g.edges ++ [(u, v)] }
      else none
  | .deleteEdge i =>
      if i < g.edges.length then
        some { g with edges := g.edges.eraseIdx i }
      else none

/-- Modelled from the spec: mutate applies one structural change in place;
on success the generation token is incremented, on failure the state is
returned untouched together with the typed error (atomic per call). -/
def Resource.mutate (r : Resource) (op : MutOp) : Except IgraphError Unit × Resource :=
  match r.state with
  | none => (Except.error IgraphError.staleReferenceError, r)
  | some (g, tok) =>
      match g.applyOp op with
      | none => (Except.error IgraphError.invalidOperationError, r)
      | some g2 =>
          (Except.ok (), { state := some (g2, tok + 1), freedCount := r.freedCount })

/-- Modelled from the spec: destroy releases the native structure exactly
once; a second call finds the terminal sentinel and is a no-op; neither
call can fault. -/
def Resource.destroy (r : Resource) : Except IgraphError Unit × Resource :=
  match r.state with
  | some _ => (Except.ok (), { state := none, freedCount := r.freedCount + 1 })
  | none => (Except.ok (), r)

/-- Modelled from the spec: snapshot of the current vertex and edge
counts, read-only with respect to the Resource. -/
def Resource.snapshot_bounds (r : Resource) : Except IgraphError (Nat × Nat) × Resource :=
  (match r.state with
   | none => Except.error IgraphError.staleReferenceError
   | some (g, _) => Except.ok (g.vcount, g.edges.length), r)

/-- Modelled from the spec: a Back-Reference stores the generation token
captured from its Resource when it was bound; the weak link itself is
represented by the optional Resource supplied at resolution time (none
when the Resource object is gone). -/
structure BackRef where
  token : Nat
  deriving DecidableEq

/-- Modelled from the spec: bind captures the Resource's current token. -/
def BackRef.bind (r : Resource) : Option BackRef :=
  match r.state with
  | some (_, tok) => some { token := tok }
  | none => none

/-- Modelled from the spec: resolve yields the Resource's native state
when the Resource is alive and the stored token equals its current token,
and fails with StaleReferenceError in every other case. -/
def BackRef.resolve (b : BackRef) (r? : Option Resource) : Except IgraphError NativeGraph :=
  match r? with
  | none => Except.error IgraphError.staleReferenceError
  | some r =>
      match r.state with
      | none => Except.error IgraphError.staleReferenceError
      | some (g, tok) =>
          if b.token = tok then Except.ok g
          else Except.error IgraphError.staleReferenceError

/-- Sequential composition of mutation effects on the native structure. -/
def NativeGraph.applyAll (g : NativeGraph) (ops : List MutOp) : Option NativeGraph :=
  ops.foldl (fun acc op => acc.bind (fun g2 => g2.applyOp op)) (some g)

/-- A sequence of mutate calls, stopping at the first failure. -/
def Resource.mutateList : Resource → List MutOp → Except IgraphError Unit × Resource
  | r, [] => (Except.ok (), r)
  | r, op :: ops =>
      match r.mutate op with
      | (Except.ok _, r2) => r2.mutateList ops
      | (Except.error e, r2) => (Except.error e, r2)

/-- The calls of the modelled public interface. -/
inductive ApiCall where
  | createCall (s : GraphSpec)
  | mutateCall (r : Resource) (op : MutOp)
  | destroyCall (r : Resource)
  | resolveCall (b : BackRef) (r? : Option Resource)
  | boundsCall (r : Resource)

/-- Results carried by a successful public call. -/
inductive ApiResult where
  | resourceV (r : Resource)
  | stateV (g : NativeGraph)
  | boundsV (p : Nat × Nat)
  | unitV (r : Resource)
  deriving DecidableEq

/-- Run one public call, producing either a typed error or a result, as
the Python convention returns either a raised typed exception with a null
pointer or a real object. -/
def ApiCall.run : ApiCall → Except IgraphError ApiResult
  | .createCall s => (Resource.create s).map ApiResult.resourceV
  | .mutateCall r op =>
      match r.mutate op with
      | (Except.ok _, r2) => Except.ok (ApiResult.unitV r2)
      | (Except.error e, _) => Except.error e
  | .destroyCall r =>
      match r.destroy with
      | (Except.ok _, r2) => Except.ok (ApiResult.unitV r2)
      | (Except.error e, _) => Except.error e
  | .resolveCall b r? => (b.resolve r?).map ApiResult.stateV
  | .boundsCall r => (r.snapshot_bounds).1.map ApiResult.boundsV

/-- The documented failure condition of each public call, stated
independently of how the call is executed. -/
def ApiCall.failCondition : ApiCall → Bool
  | .createCall s => !s.wellFormed
  | .mutateCall r op =>
      match r.state with
      | none => true
      | some (g, _) => op.outOfRange g
  | .destroyCall _ => false
  | .resolveCall b r? =>
      match r? with
      | none => true
      | some r =>
          match r.state with
          | none => true
          | some (_, tok) => !(b.token == tok)
  | .boundsCall r => r.state.isNone

/-- A concrete well-formed build specification: three vertices, edges
(0,1) and (1,2), undirected. -/
def specEx : GraphSpec := { vcount := 3, edges := [(0, 1), (1, 2)], directed := false }

/-- The native structure built from specEx. -/
def gEx : NativeGraph := { vcount := 3, edges := [(0, 1), (1, 2)], directed := false }

/-- A live Resource owning gEx at generation token zero. -/
def rEx : Resource := { state := some (gEx, 0), freedCount := 0 }

/-- Claim C1 (as stated) is false on the code: initigraph registers
tp_traverse and tp_clear on the four proxy types only, while on the Graph
type it assigns just tp_new, tp_init, tp_methods and tp_getset, so after
a fully successful initialization the Graph type object has neither
Lifetime Coordinator hook registered. -/
theorem initigraph_graph_hooks_counterexample :
    ¬ (cycleParticipants.all (fun t =>
        hasGcHooks ((initigraph (fun _ => true) Engine.example ModuleState.initial).slotsOf t))
          = true) := by
  decide

/-- Claim C1, amended: after module initialization completes with every
PyType_Ready call succeeding, the Vertex and Edge Collection View and
Element Handle types each have both Lifetime Coordinator hooks
(tp_traverse and tp_clear) registered, while the Resource (Graph) type has
neither hook registered. -/
theorem initigraph_gc_hooks_on_proxies (ready : TypeId → Bool) (eng : Engine)
    (h : ∀ t, ready t = true) :
    ([TypeId.vertexSeq, TypeId.vertex, TypeId.edgeSeq, TypeId.edge].all (fun t =>
       hasGcHooks ((initigraph ready eng ModuleState.initial).slotsOf t))) = true
    ∧ hasGcHooks ((initigraph ready eng ModuleState.initial).slotsOf TypeId.graph) = false := by
  rw [show ready = fun _ => true from funext h]
  exact ⟨rfl, rfl⟩

/-- Witness for the amended claim C1 at the always-succeeding ready oracle
and the concrete engine. -/
theorem initigraph_gc_hooks_on_proxies_witness :
    (∀ t : TypeId, (fun _ : TypeId => true) t = true)
    ∧ (([TypeId.vertexSeq, TypeId.vertex, TypeId.edgeSeq, TypeId.edge].all (fun t =>
          hasGcHooks
            ((initigraph (fun _ => true) Engine.example ModuleState.initial).slotsOf t))) = true
       ∧ hasGcHooks
           ((initigraph (fun _ => true) Engine.example ModuleState.initial).slotsOf TypeId.graph)
           = false) :=
  ⟨fun _ => rfl,
   initigraph_gc_hooks_on_proxies (fun _ => true) Engine.example (fun _ => rfl)⟩

/-- Claim C5: after a fully successful initialization the module publishes
exactly the named integer constants OUT, IN, ALL, STAR_OUT, STAR_IN,
STAR_UNDIRECTED, TREE_OUT, TREE_IN, TREE_UNDIRECTED, STRONG, WEAK,
GET_ADJACENCY_UPPER, GET_ADJACENCY_LOWER and GET_ADJACENCY_BOTH, each
bound to the engine's corresponding enumerant value. -/
theorem initigraph_int_constants (ready : TypeId → Bool) (eng : Engine)
    (h : ∀ t, ready t = true) :
    (initigraph ready eng ModuleState.initial).intConstants =
      [("OUT", eng.IGRAPH_OUT), ("IN", eng.IGRAPH_IN), ("ALL", eng.IGRAPH_ALL),
       ("STAR_OUT", eng.IGRAPH_STAR_OUT), ("STAR_IN", eng.IGRAPH_STAR_IN),
       ("STAR_UNDIRECTED", eng.IGRAPH_STAR_UNDIRECTED),
       ("TREE_OUT", eng.IGRAPH_TREE_OUT), ("TREE_IN", eng.IGRAPH_TREE_IN),
       ("TREE_UNDIRECTED", eng.IGRAPH_TREE_UNDIRECTED),
       ("STRONG", eng.IGRAPH_STRONG), ("WEAK", eng.IGRAPH_WEAK),
       ("GET_ADJACENCY_UPPER", eng.IGRAPH_GET_ADJACENCY_UPPER),
       ("GET_ADJACENCY_LOWER", eng.IGRAPH_GET_ADJACENCY_LOWER),
       ("GET_ADJACENCY_BOTH", eng.IGRAPH_GET_ADJACENCY_BOTH)] := by
  rw [show ready = fun _ => true from funext h]
  rfl

/-- Witness for claim C5 at the always-succeeding ready oracle and the
concrete engine. -/
theorem initigraph_int_constants_witness :
    (∀ t : TypeId, (fun _ : TypeId => true) t = true)
    ∧ (initigraph (fun _ => true) Engine.example ModuleState.initial).intConstants =
        [("OUT", Engine.example.IGRAPH_OUT), ("IN", Engine.example.IGRAPH_IN),
         ("ALL", Engine.example.IGRAPH_ALL),
         ("STAR_OUT", Engine.example.IGRAPH_STAR_OUT),
         ("STAR_IN", Engine.example.IGRAPH_STAR_IN),
         ("STAR_UNDIRECTED", Engine.example.IGRAPH_STAR_UNDIRECTED),
         ("TREE_OUT", Engine.example.IGRAPH_TREE_OUT),
         ("TREE_IN", Engine.example.IGRAPH_TREE_IN),
         ("TREE_UNDIRECTED", Engine.example.IGRAPH_TREE_UNDIRECTED),
         ("STRONG", Engine.example.IGRAPH_STRONG), ("WEAK", Engine.example.IGRAPH_WEAK),
         ("GET_ADJACENCY_UPPER", Engine.example.IGRAPH_GET_ADJACENCY_UPPER),
         ("GET_ADJACENCY_LOWER", Engine.example.IGRAPH_GET_ADJACENCY_LOWER),
         ("GET_ADJACENCY_BOTH", Engine.example.IGRAPH_GET_ADJACENCY_BOTH)] :=
  ⟨fun _ => rfl, initigraph_int_constants (fun _ => true) Engine.example (fun _ => rfl)⟩

set_option maxHeartbeats 2000000 in
/-- Claim C6: a single initigraph call from the pristine process state
establishes every piece of process-wide state: the igraph error-handler
registration, the InternalError exception object published on the module,
and the five readied type objects with Graph published on the module.  The
trace of the call is exactly the listed initialization actions, so no
teardown is performed, and the module method table is empty, so the module
itself exposes no re-initialization (or any other) entry point. -/
theorem initigraph_one_time (ready : TypeId → Bool) (eng : Engine)
    (h : ∀ t, ready t = true) :
    (initigraph ready eng ModuleState.initial).errorHandler = true
    ∧ (initigraph ready eng ModuleState.initial).internalError = true
    ∧ (initigraph ready eng ModuleState.initial).module = true
    ∧ (initigraph ready eng ModuleState.initial).objects = ["Graph", "InternalError"]
    ∧ (∀ t, ((initigraph ready eng ModuleState.initial).slotsOf t).readied = true)
    ∧ igraphmodule_methods = []
    ∧ (initigraph ready eng ModuleState.initial).trace =
        [Event.readyType TypeId.vertexSeq, Event.readyType TypeId.vertex,
         Event.readyType TypeId.edgeSeq, Event.readyType TypeId.edge,
         Event.readyType TypeId.graph,
         Event.newException "igraph.InternalError", Event.initModule "igraph",
         Event.addObject "Graph", Event.addObject "InternalError",
         Event.addIntConstant "OUT" eng.IGRAPH_OUT,
         Event.addIntConstant "IN" eng.IGRAPH_IN,
         Event.addIntConstant "ALL" eng.IGRAPH_ALL,
         Event.addIntConstant "STAR_OUT" eng.IGRAPH_STAR_OUT,
         Event.addIntConstant "STAR_IN" eng.IGRAPH_STAR_IN,
         Event.addIntConstant "STAR_UNDIRECTED" eng.IGRAPH_STAR_UNDIRECTED,
         Event.addIntConstant "TREE_OUT" eng.IGRAPH_TREE_OUT,
         Event.addIntConstant "TREE_IN" eng.IGRAPH_TREE_IN,
         Event.addIntConstant "TREE_UNDIRECTED" eng.IGRAPH_TREE_UNDIRECTED,
         Event.addIntConstant "STRONG" eng.IGRAPH_STRONG,
         Event.addIntConstant "WEAK" eng.IGRAPH_WEAK,
         Event.addIntConstant "GET_ADJACENCY_UPPER" eng.IGRAPH_GET_ADJACENCY_UPPER,
         Event.addIntConstant "GET_ADJACENCY_LOWER" eng.IGRAPH_GET_ADJACENCY_LOWER,
         Event.addIntConstant "GET_ADJACENCY_BOTH" eng.IGRAPH_GET_ADJACENCY_BOTH,
         Event.setErrorHandler] := by
  rw [show ready = fun _ => true from funext h]
  refine ⟨rfl, rfl, rfl, rfl, fun t => ?_, rfl, rfl⟩
  cases t <;> rfl

/-- Witness for claim C6 at the always-succeeding ready oracle and the
concrete engine. -/
theorem initigraph_one_time_witness :
    (∀ t : TypeId, (fun _ : TypeId => true) t = true)
    ∧ (initigraph (fun _ => true) Engine.example ModuleState.initial).errorHandler = true :=
  ⟨fun _ => rfl,
   (initigraph_one_time (fun _ => true) Engine.example (fun _ => rfl)).1⟩

set_option maxHeartbeats 4000000 in
/-- Claim C10: if readying any of the five proxy types fails, initigraph
returns before the module object is created, so no igraph module, no
InternalError exception, no integer constants and no error-handler
registration are ever published; in that case the only actions performed
are PyType_Ready calls, and they follow the fixed order VertexSeq, Vertex,
EdgeSeq, Edge, Graph (the performed ready calls are a prefix of that
order), all before any module attribute would have been added. -/
theorem initigraph_early_return (ready : TypeId → Bool) (eng : Engine) (t : TypeId)
    (h : ready t = false) :
    (initigraph ready eng ModuleState.initial).module = false
    ∧ (initigraph ready eng ModuleState.initial).internalError = false
    ∧ (initigraph ready eng ModuleState.initial).objects = []
    ∧ (initigraph ready eng ModuleState.initial).intConstants = []
    ∧ (initigraph ready eng ModuleState.initial).errorHandler = false
    ∧ ((initigraph ready eng ModuleState.initial).trace.all Event.isReady) = true
    ∧ (((initigraph ready eng ModuleState.initial).trace.filterMap Event.ready?).isPrefixOf
        readyOrder) = true := by
  cases t <;>
    cases h1 : ready TypeId.vertexSeq <;>
    cases h2 : ready TypeId.vertex <;>
    cases h3 : ready TypeId.edgeSeq <;>
    cases h4 : ready TypeId.edge <;>
    cases h5 : ready TypeId.graph <;>
    simp_all [initigraph, ModuleState.markReady, ModuleState.updateSlot,
      ModuleState.addObject, ModuleState.addInt, ModuleState.initial,
      Event.isReady, Event.ready?, readyOrder, List.isPrefixOf, TypeSlots.empty] <;>
    decide

/-- Witness for claim C10: the ready oracle that fails exactly on the Edge
type makes initigraph return with nothing published. -/
theorem initigraph_early_return_witness :
    ((fun t => !(t == TypeId.edge)) TypeId.edge = false)
    ∧ (initigraph (fun t => !(t == TypeId.edge)) Engine.example ModuleState.initial).module
        = false :=
  ⟨rfl,
   (initigraph_early_return (fun t => !(t == TypeId.edge)) Engine.example TypeId.edge rfl).1⟩

/-- A mutation fails (produces no new structure) exactly when it targets
out-of-range elements. -/
theorem applyOp_eq_none_iff (g : NativeGraph) (op : MutOp) :
    g.applyOp op = none ↔ op.outOfRange g = true := by
  cases op with
  | addVertices n => simp [NativeGraph.applyOp, MutOp.outOfRange]
  | deleteVertex v => simp [NativeGraph.applyOp, MutOp.outOfRange]
  | addEdge u v =>
      simp [NativeGraph.applyOp, MutOp.outOfRange]
      omega
  | deleteEdge i => simp [NativeGraph.applyOp, MutOp.outOfRange]

/-- Claim C3: destroy is idempotent.  On a live Resource the first destroy
call succeeds without fault and releases the native structure, raising the
freed count by exactly one; the second call, finding the terminal
sentinel, is a no-op that also raises no fault and leaves the freed count
at that same value, so the native structure is released exactly once. -/
theorem destroy_released_once (g : NativeGraph) (tok fc : Nat) :
    Resource.destroy { state := some (g, tok), freedCount := fc }
      = (Except.ok (), { state := none, freedCount := fc + 1 })
    ∧ Resource.destroy { state := none, freedCount := fc + 1 }
      = (Except.ok (), { state := none, freedCount := fc + 1 }) :=
  ⟨rfl, rfl⟩

/-- Claim C2: resolving a Back-Reference yields the Resource's state
exactly when the Resource is alive and the stored generation token equals
the Resource's current token; when the Resource object is gone, when it
has been destroyed, or when the token differs, resolve fails with
StaleReferenceError, and every successful resolve certifies the token
match. -/
theorem resolve_contract (b : BackRef) (r? : Option Resource) :
    (∀ r g tok, r? = some r → r.state = some (g, tok) →
       b.resolve r? = if b.token = tok then Except.ok g
                      else Except.error IgraphError.staleReferenceError)
    ∧ (r? = none → b.resolve r? = Except.error IgraphError.staleReferenceError)
    ∧ (∀ r, r? = some r → r.state = none →
         b.resolve r? = Except.error IgraphError.staleReferenceError)
    ∧ (∀ g, b.resolve r? = Except.ok g →
         ∃ r, r? = some r ∧ r.state = some (g, b.token)) := by
  refine ⟨?_, ?_, ?_, ?_⟩
  · rintro r g tok rfl hs
    simp [BackRef.resolve, hs]
  · rintro rfl
    rfl
  · rintro r rfl hs
    simp [BackRef.resolve, hs]
  · intro g hg
    cases r? with
    | none => simp [BackRef.resolve] at hg
    | some r =>
        obtain ⟨st, fcnt⟩ := r
        cases st with
        | none => simp [BackRef.resolve] at hg
        | some p =>
            obtain ⟨g2, tok⟩ := p
            simp only [BackRef.resolve] at hg
            split at hg
            · next htok =>
                obtain rfl : g2 = g := by simpa using hg
                exact ⟨_, rfl, by rw [htok]⟩
            · simp at hg

/-- Witness for claim C2: a Back-Reference holding token 1 resolved
against a live Resource whose current token is 0 fails with
StaleReferenceError. -/
theorem resolve_contract_witness :
    BackRef.resolve { token := 1 } (some rEx)
      = Except.error IgraphError.staleReferenceError := by
  have h := (resolve_contract { token := 1 } (some rEx)).1 rEx gEx 0 rfl rfl
  simpa using h

/-- Claim C4: a mutate call whose operation targets out-of-range elements
fails with InvalidOperationError and returns the Resource bit for bit as
it was, its generation token included; every successful mutate call
produces the mutated structure with the generation token incremented by
one. -/
theorem mutate_contract (g : NativeGraph) (tok fc : Nat) (op : MutOp) :
    (op.outOfRange g = true →
       Resource.mutate { state := some (g, tok), freedCount := fc } op
         = (Except.error IgraphError.invalidOperationError,
            { state := some (g, tok), freedCount := fc }))
    ∧ (∀ u r2,
        Resource.mutate { state := some (g, tok), freedCount := fc } op
          = (Except.ok u, r2) →
        ∃ g2, g.applyOp op = some g2
          ∧ r2 = { state := some (g2, tok + 1), freedCount := fc }) := by
  constructor
  · intro h
    have hnone : g.applyOp op = none := (applyOp_eq_none_iff g op).mpr h
    simp [Resource.mutate, hnone]
  · intro u r2 h
    match ha : g.applyOp op with
    | none => simp [Resource.mutate, ha] at h
    | some g2 =>
        simp [Resource.mutate, ha] at h
        exact ⟨g2, rfl, h.symm⟩

/-- Witness for claim C4: deleting vertex 5 of a three-vertex graph fails
with InvalidOperationError and leaves the Resource untouched. -/
theorem mutate_contract_witness :
    MutOp.outOfRange gEx (MutOp.deleteVertex 5) = true
    ∧ Resource.mutate { state := some (gEx, 0), freedCount := 0 } (MutOp.deleteVertex 5)
        = (Except.error IgraphError.invalidOperationError,
           { state := some (gEx, 0), freedCount := 0 }) :=
  ⟨by decide, (mutate_contract gEx 0 0 (MutOp.deleteVertex 5)).1 (by decide)⟩

/-- A chain of mutation effects starting from a dead value stays dead. -/
theorem foldl_bind_none (ops : List MutOp) :
    ops.foldl (fun acc op => acc.bind (fun g2 => g2.applyOp op))
      (none : Option NativeGraph) = none := by
  induction ops with
  | nil => rfl
  | cons op ops ih =>
      rw [List.foldl_cons]
      exact ih

/-- A successful mutation step in equation form. -/
theorem mutate_ok_eq (g g2 : NativeGraph) (tok fc : Nat) (op : MutOp)
    (ha : g.applyOp op = some g2) :
    Resource.mutate { state := some (g, tok), freedCount := fc } op
      = (Except.ok (), { state := some (g2, tok + 1), freedCount := fc }) := by
  simp [Resource.mutate, ha]

/-- Unfolding a mutate sequence after one successful call. -/
theorem mutateList_cons_ok (r r2 : Resource) (op : MutOp) (ops : List MutOp)
    (h : r.mutate op = (Except.ok (), r2)) :
    r.mutateList (op :: ops) = r2.mutateList ops := by
  simp only [Resource.mutateList, h]

/-- A sequence of mutations all of which succeed leaves the Resource with
the replayed structure and a token advanced by the sequence length. -/
theorem mutateList_ok (ops : List MutOp) :
    ∀ (g g2 : NativeGraph) (tok fc : Nat), g.applyAll ops = some g2 →
      Resource.mutateList { state := some (g, tok), freedCount := fc } ops
        = (Except.ok (), { state := some (g2, tok + ops.length), freedCount := fc }) := by
  induction ops with
  | nil =>
      intro g g2 tok fc h
      simp [NativeGraph.applyAll] at h
      subst h
      simp [Resource.mutateList]
  | cons op ops ih =>
      intro g g2 tok fc h
      have h' : ops.foldl (fun acc op2 => acc.bind (fun g3 => g3.applyOp op2))
          (g.applyOp op) = some g2 := h
      match ha : g.applyOp op with
      | none =>
          rw [ha, foldl_bind_none] at h'
          exact absurd h' (by simp)
      | some g1 =>
          rw [ha] at h'
          have h2 : g1.applyAll ops = some g2 := h'
          rw [mutateList_cons_ok _ _ op ops (mutate_ok_eq g g1 tok fc op ha)]
          rw [ih g1 g2 (tok + 1) fc h2]
          have hn : tok + 1 + ops.length = tok + (ops.length + 1) := by omega
          rw [hn]
          rfl

/-- Claim C8: after any sequence of successful mutate calls the bounds
reported by snapshot_bounds are exactly the vertex and edge counts of the
net effect of the sequence applied in order to the starting structure;
and snapshot_bounds leaves the Resource untouched, so re-querying it with
no intervening mutation yields the identical result. -/
theorem bounds_net_effect (g g2 : NativeGraph) (tok fc : Nat) (ops : List MutOp)
    (h : g.applyAll ops = some g2) :
    ((Resource.mutateList { state := some (g, tok), freedCount := fc } ops).2.snapshot_bounds).1
      = Except.ok (g2.vcount, g2.edges.length)
    ∧ (∀ r : Resource, (r.snapshot_bounds.2).snapshot_bounds = r.snapshot_bounds) := by
  constructor
  · rw [mutateList_ok ops g g2 tok fc h]
    rfl
  · intro r
    rfl

/-- Witness for claim C8: on the three-vertex example, adding edge (0,2)
and then deleting vertex 1 leaves bounds (2, 1). -/
theorem bounds_net_effect_witness :
    NativeGraph.applyAll gEx [MutOp.addEdge 0 2, MutOp.deleteVertex 1]
      = some { vcount := 2, edges := [(0, 1)], directed := false }
    ∧ ((Resource.mutateList { state := some (gEx, 0), freedCount := 0 }
          [MutOp.addEdge 0 2, MutOp.deleteVertex 1]).2.snapshot_bounds).1
        = Except.ok (2, 1) :=
  ⟨by decide,
   (bounds_net_effect gEx { vcount := 2, edges := [(0, 1)], directed := false }
     0 0 [MutOp.addEdge 0 2, MutOp.deleteVertex 1] (by decide)).1⟩

/-- Claim C9: creating a Resource from any well-formed spec and
immediately reading back its bounds and adjacency reproduces the spec
exactly: the vertex count, the edge list in order, and the directedness
flag all round-trip. -/
theorem create_roundtrip (s : GraphSpec) (h : s.wellFormed = true) :
    ∃ g : NativeGraph,
      Resource.create s = Except.ok { state := some (g, 0), freedCount := 0 }
      ∧ (Resource.snapshot_bounds { state := some (g, 0), freedCount := 0 }).1
          = Except.ok (g.vcount, g.edges.length)
      ∧ (g.vcount : Int) = s.vcount
      ∧ g.edges.map (fun e => ((e.1 : Int), (e.2 : Int))) = s.edges
      ∧ g.directed = s.directed := by
  have hw := h
  simp only [GraphSpec.wellFormed, Bool.and_eq_true, decide_eq_true_eq,
    List.all_eq_true] at hw
  obtain ⟨hv, he⟩ := hw
  refine ⟨{ vcount := s.vcount.toNat,
            edges := s.edges.map (fun e => (e.1.toNat, e.2.toNat)),
            directed := s.directed }, ?_, rfl, ?_, ?_, rfl⟩
  · simp [Resource.create, h]
  · exact Int.toNat_of_nonneg hv
  · rw [List.map_map]
    have hid : ∀ e ∈ s.edges,
        ((fun e : Nat × Nat => ((e.1 : Int), (e.2 : Int))) ∘
          (fun e : Int × Int => (e.1.toNat, e.2.toNat))) e = id e := by
      intro e hee
      have hh := he e hee
      have h1 : 0 ≤ e.1 := by tauto
      have h2 : 0 ≤ e.2 := by tauto
      simp [Function.comp, Int.toNat_of_nonneg h1, Int.toNat_of_nonneg h2]
    rw [List.map_congr_left hid, List.map_id]

/-- Witness for claim C9 at the concrete well-formed spec. -/
theorem create_roundtrip_witness :
    GraphSpec.wellFormed specEx = true
    ∧ (∃ g : NativeGraph,
        Resource.create specEx = Except.ok { state := some (g, 0), freedCount := 0 }
        ∧ (Resource.snapshot_bounds { state := some (g, 0), freedCount := 0 }).1
            = Except.ok (g.vcount, g.edges.length)
        ∧ (g.vcount : Int) = specEx.vcount
        ∧ g.edges.map (fun e => ((e.1 : Int), (e.2 : Int))) = specEx.edges
        ∧ g.directed = specEx.directed) :=
  ⟨by decide, create_roundtrip specEx (by decide)⟩

/-- Claim C7: every call of the modelled public interface reports failure
synchronously to its immediate caller as a typed error value: the call
produces an error result exactly when its documented typed failure
condition holds on the call's own arguments, so no error is silently
swallowed and none is deferred or batched. -/
theorem api_failure_iff (c : ApiCall) :
    (∃ e, c.run = Except.error e) ↔ c.failCondition = true := by
  cases c with
  | createCall s =>
      cases hw : s.wellFormed <;>
        simp [ApiCall.run, ApiCall.failCondition, Except.map, Resource.create, hw]
  | mutateCall r op =>
      obtain ⟨st, fc⟩ := r
      cases st with
      | none => simp [ApiCall.run, ApiCall.failCondition, Except.map, Resource.mutate]
      | some p =>
          obtain ⟨g, tok⟩ := p
          cases ha : g.applyOp op with
          | none =>
              have ho := (applyOp_eq_none_iff g op).mp ha
              simp [ApiCall.run, ApiCall.failCondition, Except.map, Resource.mutate, ha, ho]
          | some g2 =>
              have hfalse : op.outOfRange g = false := by
                cases hor : op.outOfRange g
                · rfl
                · have hn := (applyOp_eq_none_iff g op).mpr hor
                  rw [hn] at ha
                  simp at ha
              simp [ApiCall.run, ApiCall.failCondition, Except.map, Resource.mutate, ha, hfalse]
  | destroyCall r =>
      obtain ⟨st, fc⟩ := r
      cases st <;> simp [ApiCall.run, ApiCall.failCondition, Except.map, Resource.destroy]
  | resolveCall b r? =>
      cases r? with
      | none => simp [ApiCall.run, ApiCall.failCondition, Except.map, BackRef.resolve]
      | some r =>
          obtain ⟨st, fc⟩ := r
          cases st with
          | none => simp [ApiCall.run, ApiCall.failCondition, Except.map, BackRef.resolve]
          | some p =>
              obtain ⟨g, tok⟩ := p
              by_cases ht : b.token = tok
              · simp [ApiCall.run, ApiCall.failCondition, Except.map, BackRef.resolve, ht]
              · simp [ApiCall.run, ApiCall.failCondition, Except.map, BackRef.resolve, ht]
  | boundsCall r =>
      obtain ⟨st, fc⟩ := r
      cases st <;>
        simp [ApiCall.run, ApiCall.failCondition, Except.map, Resource.snapshot_bounds]
